import Mathlib

/-!
Shallow embedding of `episimlab/fit/llsq.py` (`LeastSqFitter`), the
least-squares model-fitting wrapper of the episimlab repository.

Modelling conventions:
* real values are `ℚ`;
* an `xarray.DataArray` is an `XArray`: a list of dimension names, a
  coordinate-label list per dimension, and a data function from an
  index assignment (one index per dimension name) to a value;
* `.loc[dict(dim=label)]` is `XArray.sel`, `.sum(dim=[...])` is
  `XArray.sumDims`; xarray arithmetic between two one-dimensional
  time series aligns the `step` coordinates by inner join
  (`Series.subAligned`);
* the external `xsimlab` run is an opaque deterministic function
  `SimRunner : InDs → XArray` producing the
  `apply_counts_delta__counts` output array;
* `scipy.optimize.least_squares` is an opaque function consuming the
  reified call record `LsCall`; its documented default tolerances
  `ftol = xtol = gtol = 1e-8` are `scipyDefaultTol`;
* Python exceptions are `Except PyError`; the two `assert` statements
  of `calc_residual` become `PyError.assertionError`;
* methods that can assign to `self` are state transformers returning
  the updated fitter; `calc_residual` assigns nothing, `fit` assigns
  `self.soln`;
* calls to the simulation runner are recorded in a trace
  (`List InDs`), one entry per launched run.
-/

namespace Episimlab

/-- Python runtime errors that the fitting code can raise. -/
inductive PyError where
  | keyError (label : String)
  | indexError
  | valueError (msg : String)
  | assertionError (msg : String)
deriving DecidableEq, Repr

/-- A labeled multi-dimensional array (embedding of `xarray.DataArray`):
dimension names, coordinate labels per dimension, and data indexed by an
assignment of a positional index to each dimension name. -/
structure XArray where
  dims : List String
  coords : String → List String
  data : (String → ℕ) → ℚ

/-- Label-based selection `.loc[dict(dim=label)]`: requires the dimension
to exist and the label to occur among its coordinates (otherwise a
`KeyError`); drops the selected dimension and fixes its index. -/
def XArray.sel (a : XArray) (dim label : String) : Except PyError XArray :=
  if dim ∈ a.dims then
    match (a.coords dim).indexOf? label with
    | none => .error (.keyError label)
    | some i => .ok
        { dims := a.dims.erase dim
          coords := a.coords
          data := fun f => a.data (fun d => if d = dim then i else f d) }
  else .error (.keyError dim)

/-- Sum-reduction over one dimension: the dimension is removed and the
data summed over all its coordinate positions. -/
def XArray.sumDim (a : XArray) (dim : String) : XArray :=
  { dims := a.dims.erase dim
    coords := a.coords
    data := fun f =>
      (((List.range (a.coords dim).length).map
        (fun i => a.data (fun d => if d = dim then i else f d))).sum) }

/-- `.sum(dim=[...])`: xarray raises a `ValueError` when a requested
dimension is absent; otherwise reduces each dimension in turn. -/
def XArray.sumDims (a : XArray) (ds : List String) : Except PyError XArray :=
  if ds.all (fun d => decide (d ∈ a.dims)) then .ok (ds.foldl XArray.sumDim a)
  else .error (.valueError "dimension not found")

/-- A one-dimensional time-indexed series: `step` coordinate labels and a
value at each label. -/
structure Series where
  coords : List String
  val : String → ℚ

/-- View a (one-dimensional, `step`-indexed) array as a `Series`. -/
def XArray.toSeries (a : XArray) : Series :=
  { coords := a.coords "step"
    val := fun t => a.data (fun _ => (a.coords "step").indexOf t) }

/-- xarray subtraction of two `step`-indexed series: the operands are
aligned by an inner join of their coordinate labels (result coordinates
are the left operand's labels that also occur in the right operand), and
values are subtracted label-wise. -/
def Series.subAligned (p o : Series) : Series :=
  { coords := p.coords.filter (fun c => decide (c ∈ o.coords))
    val := fun c => p.val c - o.val c }

/-- Extra keyword arguments forwarded verbatim to
`scipy.optimize.least_squares` (`ls_kwargs` in the source); modelled as
the optional overridable numeric options of that interface. -/
structure LsKwargs where
  ftol : Option ℚ := none
  gtol : Option ℚ := none
  max_nfev : Option ℕ := none
deriving DecidableEq, Repr

/-- The optimizer's result object (`scipy.optimize.OptimizeResult`):
fitted parameter and convergence status. -/
structure Solution where
  x : ℚ
  status : ℤ
deriving DecidableEq, Repr

/-- Install location of the episimlab package (external constant). -/
def EPISIMLAB_HOME : String := "episimlab"

/-- Default `step_clock`: stands for
`pd.date_range(start='2/1/2020', end='4/1/2020', freq='12H')`,
121 half-day timestamps. -/
def defaultStepClock : List String :=
  (List.range 121).map (fun i => "2020-02-01+" ++ toString (12 * i) ++ "h")

/-- The `@attr.s` class `LeastSqFitter`: the stored configuration, with
the attrs defaults of the source, plus the `soln` slot that `fit`
assigns (absent until then, hence `Option`). -/
structure LeastSqFitter where
  data : Series
  guess : ℚ
  model : String
  dep_var : String := "beta"
  step_clock : List String := defaultStepClock
  verbosity : ℤ := 0
  ls_kwargs : LsKwargs := {}
  config_fp : String := EPISIMLAB_HOME ++ "/tests/config/example_v1.yaml"
  soln : Option Solution := none

/-- The attrs-generated constructor: stores each field, nothing else. -/
def mkLeastSqFitter (data : Series) (guess : ℚ) (model : String)
    (dep_var : String) (step_clock : List String) (verbosity : ℤ)
    (ls_kwargs : LsKwargs) (config_fp : String) : LeastSqFitter :=
  { data := data, guess := guess, model := model, dep_var := dep_var
    step_clock := step_clock, verbosity := verbosity
    ls_kwargs := ls_kwargs, config_fp := config_fp, soln := none }

/-- A value bound in the `input_vars` mapping of a simulation setup. -/
inductive InputVal where
  | str (s : String)
  | num (q : ℚ)
deriving DecidableEq, Repr

/-- The input dataset built by `xs.create_setup`: model reference,
clocks, input-variable bindings, output-variable selection. -/
structure InDs where
  model : String
  clocks : List (String × List String)
  input_vars : List (String × InputVal)
  output_vars : List (String × String)
deriving DecidableEq, Repr

/-- `get_in_ds(self, dep_vars)`: takes `beta = dep_vars[0]` (an empty
vector raises `IndexError`) and builds the setup with the configuration
path and `foi__beta` bindings.  The source defines `get_in_ds` twice in
the class body; the first (zero-argument) definition is shadowed by this
second one and is dead code, so only the second is embedded. -/
def LeastSqFitter.get_in_ds (f : LeastSqFitter) (dep_vars : List ℚ) :
    Except PyError InDs :=
  match dep_vars.head? with
  | none => .error .indexError
  | some beta => .ok
      { model := f.model
        clocks := [("step", f.step_clock)]
        input_vars :=
          [("read_config__config_fp", .str f.config_fp),
           ("foi__beta", .num beta)]
        output_vars := [("apply_counts_delta__counts", "step")] }

/-- The external simulation engine (`.xsimlab.run`): deterministically
maps an input dataset to the `apply_counts_delta__counts` output array. -/
abbrev SimRunner := InDs → XArray

/-- `get_out_ds(self, dep_vars)`: build the input dataset and run the
model on it. -/
def LeastSqFitter.get_out_ds (f : LeastSqFitter) (runner : SimRunner)
    (dep_vars : List ℚ) : Except PyError XArray :=
  (f.get_in_ds dep_vars).map runner

/-- The stratifying dimensions summed away by `calc_residual`. -/
def stratDims : List String := ["age_group", "risk_group", "vertex"]

/-- The dimensions of the simulation output array. -/
def stdDims : List String :=
  ["step", "compartment", "age_group", "risk_group", "vertex"]

/-- The extraction pipeline inside `calc_residual`:
`.loc[dict(compartment='Ih')]`, then
`.sum(dim=['age_group', 'risk_group', 'vertex'])`, then the two
assertions `len(ih_pred.shape) == 1` and `'step' in ih_pred.dims`. -/
def extract_ih (out : XArray) : Except PyError XArray :=
  match out.sel "compartment" "Ih" with
  | .error e => .error e
  | .ok s =>
    match s.sumDims stratDims with
    | .error e => .error e
    | .ok r =>
      if r.dims.length = 1 then
        if "step" ∈ r.dims then .ok r
        else .error (.assertionError "step is not in dims")
      else .error (.assertionError "shape len != 1")

/-- `calc_residual(self, dep_vars, ih_actual)` with an explicit trace of
the simulation runs it launches: build the input dataset, run the model
once, extract the `Ih` series, and return `ih_pred - ih_actual`. -/
def LeastSqFitter.calc_residual_traced (f : LeastSqFitter)
    (runner : SimRunner) (dep_vars : List ℚ) (ih_actual : Series) :
    List InDs × Except PyError Series :=
  match f.get_in_ds dep_vars with
  | .error e => ([], .error e)
  | .ok ds =>
    ([ds],
      match extract_ih (runner ds) with
      | .error e => .error e
      | .ok ih_pred => .ok (ih_pred.toSeries.subAligned ih_actual))

/-- The value returned by `calc_residual`. -/
def LeastSqFitter.calc_residual (f : LeastSqFitter) (runner : SimRunner)
    (dep_vars : List ℚ) (ih_actual : Series) : Except PyError Series :=
  (f.calc_residual_traced runner dep_vars ih_actual).2

/-- `calc_residual` as a method on the object state: the body contains
no assignment to `self`, so the fitter component is returned as
received, together with the run trace and the result. -/
def LeastSqFitter.calc_residual_method (f : LeastSqFitter)
    (runner : SimRunner) (dep_vars : List ℚ) (ih_actual : Series) :
    LeastSqFitter × List InDs × Except PyError Series :=
  (f, f.calc_residual_traced runner dep_vars ih_actual)

/-- The scipy-documented default for `ftol`, `xtol` and `gtol`. -/
def scipyDefaultTol : ℚ := 1 / 100000000

/-- A reified call to `scipy.optimize.least_squares`: the objective
callback, starting point, effective tolerances (explicit argument or
scipy default), verbosity, extra argument tuple and iteration cap. -/
structure LsCall where
  objective : List ℚ → Series → Except PyError Series
  x0 : ℚ
  ftol : ℚ
  xtol : ℚ
  gtol : ℚ
  verbose : ℤ
  args : Series
  max_nfev : Option ℕ

/-- The call that `fit` makes: `fun=self.calc_residual`, `x0=self.guess`,
`xtol=1e-8` explicitly, `verbose=self.verbosity`, `args=(self.data,)`,
and `**self.ls_kwargs` for the remaining options (scipy defaults where
absent). -/
def LeastSqFitter.ls_call (f : LeastSqFitter) (runner : SimRunner) : LsCall :=
  { objective := fun p obs => f.calc_residual runner p obs
    x0 := f.guess
    ftol := f.ls_kwargs.ftol.getD scipyDefaultTol
    xtol := 1 / 100000000
    gtol := f.ls_kwargs.gtol.getD scipyDefaultTol
    verbose := f.verbosity
    args := f.data
    max_nfev := f.ls_kwargs.max_nfev }

/-- `fit(self)`: invoke the optimizer on the reified call, assign the
result to `self.soln`, and return it; the second component records the
optimizer invocations made. -/
def LeastSqFitter.fit (f : LeastSqFitter) (runner : SimRunner)
    (least_squares : LsCall → Solution) :
    LeastSqFitter × List LsCall × Solution :=
  let c := f.ls_call runner
  let s := least_squares c
  ({ f with soln := some s }, [c], s)

/-- The array produced by `out.sel "compartment" "Ih"` when the label
`Ih` sits at position `i` of the compartment coordinates (a name for the
intermediate value of `calc_residual`, used to state theorems). -/
def XArray.selIh (out : XArray) (i : ℕ) : XArray :=
  { dims := out.dims.erase "compartment"
    coords := out.coords
    data := fun f => out.data (fun d => if d = "compartment" then i else f d) }

/-- The array produced by then summing the selection over the three
stratifying dimensions, in the source's order. -/
def XArray.reduced (out : XArray) (i : ℕ) : XArray :=
  (((out.selIh i).sumDim "age_group").sumDim "risk_group").sumDim "vertex"

/-- The observed series of the spec's scenario: `[100, 150, 130]` at
three time steps. -/
def demoObs : Series :=
  { coords := ["t0", "t1", "t2"]
    val := fun t =>
      if t = "t0" then 100 else if t = "t1" then 150
      else if t = "t2" then 130 else 0 }

/-- Coordinates of a small concrete simulation output: three time
steps, compartments `S` and `Ih`, two age groups, one risk group, one
vertex. -/
def demoCoords : String → List String := fun d =>
  if d = "step" then ["t0", "t1", "t2"]
  else if d = "compartment" then ["S", "Ih"]
  else if d = "age_group" then ["young", "old"]
  else if d = "risk_group" then ["low"]
  else if d = "vertex" then ["v0"]
  else []

/-- Counts for the concrete output; the `Ih` compartment sums over age
groups to `[110, 140, 120]`, the predicted series of the scenario. -/
def demoData : (String → ℕ) → ℚ := fun f =>
  if f "compartment" = 1 then
    (if f "step" = 0 then (if f "age_group" = 0 then 60 else 50)
     else if f "step" = 1 then 70
     else (if f "age_group" = 0 then 100 else 20))
  else 7

/-- A concrete simulation output array. -/
def demoOut : XArray :=
  { dims := stdDims, coords := demoCoords, data := demoData }

/-- A deterministic runner returning `demoOut` for every setup. -/
def demoRunner : SimRunner := fun _ => demoOut

/-- A fitter on the scenario's observed data with guess `0.5`. -/
def demoFitter : LeastSqFitter :=
  { data := demoObs, guess := 1/2, model := "slow_seir" }

/-- The input dataset `demoFitter.get_in_ds [1/2]` produces. -/
def demoInDs : InDs :=
  { model := "slow_seir"
    clocks := [("step", defaultStepClock)]
    input_vars :=
      [("read_config__config_fp",
        .str (EPISIMLAB_HOME ++ "/tests/config/example_v1.yaml")),
       ("foi__beta", .num (1/2))]
    output_vars := [("apply_counts_delta__counts", "step")] }

/-- An observed series whose time length (2) differs from the output's
time length (3). -/
def demoObs2 : Series :=
  { coords := ["t0", "t1"]
    val := fun t => if t = "t0" then 100 else if t = "t1" then 150 else 0 }

/-- A fitter configured with the mismatched observed series. -/
def demoFitter2 : LeastSqFitter :=
  { data := demoObs2, guess := 1/2, model := "slow_seir" }

/-- A simulation output whose compartment axis lacks the `Ih` label. -/
def demoOutNoIh : XArray :=
  { dims := stdDims
    coords := fun d =>
      if d = "step" then ["t0", "t1", "t2"]
      else if d = "compartment" then ["S", "E"]
      else if d = "age_group" then ["young", "old"]
      else if d = "risk_group" then ["low"]
      else if d = "vertex" then ["v0"]
      else []
    data := fun _ => 3 }

/-- A runner returning the `Ih`-less output. -/
def demoRunnerNoIh : SimRunner := fun _ => demoOutNoIh

/-- A concrete optimizer stub. -/
def demoOpt : LsCall → Solution := fun _ => { x := 0, status := 1 }

lemma indexOf?_isSome_of_mem {l : List String} {a : String} (h : a ∈ l) :
    ∃ i, l.indexOf? a = some i := by
  cases hi : l.indexOf? a with
  | some i => exact ⟨i, rfl⟩
  | none =>
    rw [List.indexOf?_eq_none_iff] at hi
    exact absurd (by simp : (a == a) = true) (hi a h)

lemma erase_chain_eval :
    (((["step", "age_group", "risk_group", "vertex"].erase "age_group").erase
      "risk_group").erase "vertex") = ["step"] := by decide

lemma sel_ih_eq {out : XArray} {i : ℕ} (hcomp : "compartment" ∈ out.dims)
    (hi : (out.coords "compartment").indexOf? "Ih" = some i) :
    out.sel "compartment" "Ih" = .ok (out.selIh i) := by
  simp [XArray.sel, hcomp, hi, XArray.selIh]

lemma sumDims_strat_eq {out : XArray} {i : ℕ}
    (hall : stratDims.all (fun d => decide (d ∈ (out.selIh i).dims)) = true) :
    (out.selIh i).sumDims stratDims = .ok (out.reduced i) := by
  rw [XArray.sumDims, if_pos hall]
  rfl

lemma reduced_dims_perm {out : XArray} (i : ℕ) (hperm : out.dims.Perm stdDims) :
    (out.reduced i).dims = ["step"] := by
  have h1 : (out.dims.erase "compartment").Perm
      ["step", "age_group", "risk_group", "vertex"] := by
    have h := hperm.erase "compartment"
    have h2 : stdDims.erase "compartment" =
        ["step", "age_group", "risk_group", "vertex"] := by decide
    rwa [h2] at h
  have h3 := ((h1.erase "age_group").erase "risk_group").erase "vertex"
  rw [erase_chain_eval] at h3
  exact List.perm_singleton.mp h3

lemma extract_ih_ok_of_perm {out : XArray} (hperm : out.dims.Perm stdDims)
    (hih : "Ih" ∈ out.coords "compartment") :
    ∃ r, extract_ih out = .ok r ∧ r.dims = ["step"] ∧ r.coords = out.coords := by
  obtain ⟨i, hi⟩ := indexOf?_isSome_of_mem hih
  have hcomp : "compartment" ∈ out.dims := hperm.mem_iff.mpr (by simp [stdDims])
  have hsel := sel_ih_eq hcomp hi
  have hperm1 : ((out.selIh i).dims).Perm
      ["step", "age_group", "risk_group", "vertex"] := by
    have h := hperm.erase "compartment"
    have h2 : stdDims.erase "compartment" =
        ["step", "age_group", "risk_group", "vertex"] := by decide
    rw [h2] at h
    exact h
  have hall : stratDims.all (fun d => decide (d ∈ (out.selIh i).dims)) = true := by
    simp [stratDims, hperm1.mem_iff]
  have hsum := @sumDims_strat_eq out i hall
  have hdims := @reduced_dims_perm out i hperm
  refine ⟨out.reduced i, ?_, hdims, rfl⟩
  simp [extract_ih, hsel, hsum, hdims]

lemma extract_ih_shape {out r : XArray} (h : extract_ih out = .ok r) :
    r.dims.length = 1 ∧ "step" ∈ r.dims := by
  unfold extract_ih at h
  split at h
  · simp at h
  · split at h
    · simp at h
    · split at h
      · split at h
        · injection h with h3
          subst h3
          constructor <;> assumption
        · simp at h
      · simp at h

lemma get_in_ds_cons (f : LeastSqFitter) (b : ℚ) (rest : List ℚ) :
    f.get_in_ds (b :: rest) = .ok
      { model := f.model
        clocks := [("step", f.step_clock)]
        input_vars :=
          [("read_config__config_fp", .str f.config_fp),
           ("foi__beta", .num b)]
        output_vars := [("apply_counts_delta__counts", "step")] } := rfl

lemma calc_residual_traced_ok {f : LeastSqFitter} {runner : SimRunner}
    {p : List ℚ} {obs : Series} {ds : InDs} {pred : XArray}
    (hds : f.get_in_ds p = .ok ds)
    (hpred : extract_ih (runner ds) = .ok pred) :
    f.calc_residual_traced runner p obs =
      ([ds], .ok (pred.toSeries.subAligned obs)) := by
  unfold LeastSqFitter.calc_residual_traced
  rw [hds]
  simp [hpred]

lemma calc_residual_traced_err {f : LeastSqFitter} {runner : SimRunner}
    {p : List ℚ} {obs : Series} {ds : InDs} {e : PyError}
    (hds : f.get_in_ds p = .ok ds)
    (hpred : extract_ih (runner ds) = .error e) :
    f.calc_residual_traced runner p obs = ([ds], .error e) := by
  unfold LeastSqFitter.calc_residual_traced
  rw [hds]
  simp [hpred]

lemma calc_residual_trace_cons (f : LeastSqFitter) (runner : SimRunner)
    (b : ℚ) (rest : List ℚ) (obs : Series) :
    (f.calc_residual_traced runner (b :: rest) obs).1.length = 1 := rfl

/-- C1: for every simulation output carrying the compartment axis (with
`Ih` present), the time axis and the stratifying axes `age_group`,
`risk_group`, `vertex`, the extraction inside `calc_residual` succeeds
and yields an array indexed solely by the time axis; moreover every
output that merely passes the extraction (the explicit runtime
assertions) is one-dimensional with the time axis present — success is
never silently coerced. -/
theorem calc_residual_extraction_contract
    (out : XArray) (hperm : out.dims.Perm stdDims)
    (hih : "Ih" ∈ out.coords "compartment") :
    (∃ r, extract_ih out = .ok r ∧ r.dims = ["step"]) ∧
    (∀ b r, extract_ih b = .ok r → r.dims.length = 1 ∧ "step" ∈ r.dims) := by
  constructor
  · obtain ⟨r, h1, h2, _⟩ := extract_ih_ok_of_perm hperm hih
    exact ⟨r, h1, h2⟩
  · exact fun b r h => extract_ih_shape h

/-- Witness for C1 at the concrete demo output. -/
theorem calc_residual_extraction_contract_witness :
    (∃ r, extract_ih demoOut = .ok r ∧ r.dims = ["step"]) ∧
    (∀ b r, extract_ih b = .ok r → r.dims.length = 1 ∧ "step" ∈ r.dims) :=
  calc_residual_extraction_contract demoOut (List.Perm.refl _) (by decide)

/-- C2: every successful `calc_residual` evaluation returns the
elementwise difference predicted-minus-observed at each time point; on
the spec's scenario (observed `[100, 150, 130]`, predicted `Ih` series
`[110, 140, 120]` at guess `0.5`) the residual is `[10, -10, -10]`. -/
theorem calc_residual_pred_minus_obs :
    (∀ (f : LeastSqFitter) (runner : SimRunner) (p : List ℚ) (obs : Series)
      (ds : InDs), f.get_in_ds p = .ok ds →
      ∀ pred : XArray, extract_ih (runner ds) = .ok pred →
      ∀ r : Series, f.calc_residual runner p obs = .ok r →
      ∀ t, r.val t = pred.toSeries.val t - obs.val t) ∧
    (∃ r, demoFitter.calc_residual demoRunner [1/2] demoObs = .ok r ∧
      r.val "t0" = 10 ∧ r.val "t1" = -10 ∧ r.val "t2" = -10) := by
  constructor
  · intro f runner p obs ds hds pred hpred r hr
    have h := @calc_residual_traced_ok f runner p obs ds pred hds hpred
    unfold LeastSqFitter.calc_residual at hr
    rw [h] at hr
    injection hr with h2
    subst h2
    intro t
    rfl
  · refine ⟨(demoOut.reduced 1).toSeries.subAligned demoObs, rfl, ?_, ?_, ?_⟩ <;>
    · simp [Series.subAligned, XArray.toSeries, XArray.reduced, XArray.sumDim,
        XArray.selIh, demoOut, demoObs, demoData, demoCoords, stdDims,
        show List.range 2 = [0, 1] from rfl, show List.range 1 = [0] from rfl]
      norm_num

/-- Witness for C2: the general difference property applied at the
scenario input. -/
theorem calc_residual_pred_minus_obs_witness :
    ∀ t, ((demoOut.reduced 1).toSeries.subAligned demoObs).val t =
      (demoOut.reduced 1).toSeries.val t - demoObs.val t :=
  calc_residual_pred_minus_obs.1 demoFitter demoRunner [1/2] demoObs demoInDs rfl
    (demoOut.reduced 1) rfl ((demoOut.reduced 1).toSeries.subAligned demoObs) rfl

/-- C3 counterexample: with an observed series of time length 2 against
an extracted predicted series of time length 3, `calc_residual` does not
raise the shape-contract failure: it returns `.ok` with a residual of
length 2 (the inner join of the time coordinates). -/
theorem calc_residual_no_length_check_counterexample :
    (demoOut.coords "step").length = 3 ∧ demoObs2.coords.length = 2 ∧
    demoFitter2.calc_residual demoRunner [1/2] demoObs2 =
      .ok ((demoOut.reduced 1).toSeries.subAligned demoObs2) ∧
    ((demoOut.reduced 1).toSeries.subAligned demoObs2).coords = ["t0", "t1"] :=
  ⟨rfl, rfl, rfl, by decide⟩

/-- C3 (amended): `calc_residual` performs no length comparison against
the observed series — its assertions constrain only the predicted
series; whenever extraction succeeds it returns, without raising, a
residual whose time coordinates are the predicted coordinates restricted
to those present in the observed series (xarray inner-join alignment),
misaligned lengths included. -/
theorem calc_residual_mismatch_aligns
    (f : LeastSqFitter) (runner : SimRunner) (p : List ℚ) (obs : Series)
    (ds : InDs) (hds : f.get_in_ds p = .ok ds)
    (pred : XArray) (hpred : extract_ih (runner ds) = .ok pred) :
    f.calc_residual runner p obs = .ok (pred.toSeries.subAligned obs) ∧
    (pred.toSeries.subAligned obs).coords =
      pred.toSeries.coords.filter (fun c => decide (c ∈ obs.coords)) := by
  constructor
  · unfold LeastSqFitter.calc_residual
    rw [calc_residual_traced_ok hds hpred]
  · rfl

/-- Witness for the amended C3 at the mismatched concrete input. -/
theorem calc_residual_mismatch_aligns_witness :
    demoFitter2.calc_residual demoRunner [1/2] demoObs2 =
      .ok ((demoOut.reduced 1).toSeries.subAligned demoObs2) ∧
    ((demoOut.reduced 1).toSeries.subAligned demoObs2).coords =
      (demoOut.reduced 1).toSeries.coords.filter
        (fun c => decide (c ∈ demoObs2.coords)) :=
  calc_residual_mismatch_aligns demoFitter2 demoRunner [1/2] demoObs2
    demoInDs rfl (demoOut.reduced 1) rfl

/-- C4: `fit` invokes the optimizer exactly once, with `calc_residual`
as the objective callback, the stored guess as starting point and the
observed data as extra argument; with default `ls_kwargs` the
first-order optimality tolerance `gtol` is the optimizer's own default
`1e-8`; the optimizer's Solution is returned to the caller. -/
theorem fit_invokes_optimizer_once
    (f : LeastSqFitter) (runner : SimRunner) (opt : LsCall → Solution) :
    (f.fit runner opt).2.1 = [f.ls_call runner] ∧
    (f.ls_call runner).objective = (fun p obs => f.calc_residual runner p obs) ∧
    (f.ls_call runner).x0 = f.guess ∧
    (f.ls_call runner).args = f.data ∧
    (f.ls_kwargs = {} → (f.ls_call runner).gtol = 1 / 100000000) ∧
    (f.fit runner opt).2.2 = opt (f.ls_call runner) := by
  refine ⟨rfl, rfl, rfl, rfl, ?_, rfl⟩
  intro h
  simp only [LeastSqFitter.ls_call, h]
  rfl

/-- Witness for C4 at the concrete demo fitter and optimizer stub. -/
theorem fit_invokes_optimizer_once_witness :
    (demoFitter.fit demoRunner demoOpt).2.1 = [demoFitter.ls_call demoRunner] ∧
    (demoFitter.ls_call demoRunner).objective =
      (fun p obs => demoFitter.calc_residual demoRunner p obs) ∧
    (demoFitter.ls_call demoRunner).x0 = demoFitter.guess ∧
    (demoFitter.ls_call demoRunner).args = demoFitter.data ∧
    (demoFitter.ls_kwargs = {} →
      (demoFitter.ls_call demoRunner).gtol = 1 / 100000000) ∧
    (demoFitter.fit demoRunner demoOpt).2.2 =
      demoOpt (demoFitter.ls_call demoRunner) :=
  fit_invokes_optimizer_once demoFitter demoRunner demoOpt

/-- C5: two sequential `calc_residual` calls with the same parameter
vector, observed data and deterministic runner (the second starting from
the state the first returned) produce identical residuals, and each call
launches exactly one complete simulation run — nothing is cached. -/
theorem calc_residual_deterministic_no_caching
    (f : LeastSqFitter) (runner : SimRunner) (p : List ℚ) (obs : Series)
    (hp : p ≠ []) :
    ((f.calc_residual_method runner p obs).1.calc_residual_method runner p obs).2.2 =
      (f.calc_residual_method runner p obs).2.2 ∧
    (f.calc_residual_method runner p obs).2.1.length = 1 ∧
    ((f.calc_residual_method runner p obs).1.calc_residual_method runner p obs).2.1.length = 1 := by
  obtain ⟨b, rest, rfl⟩ : ∃ b rest, p = b :: rest := by
    cases p with
    | nil => exact absurd rfl hp
    | cons b rest => exact ⟨b, rest, rfl⟩
  exact ⟨rfl, calc_residual_trace_cons f runner b rest obs,
    calc_residual_trace_cons f runner b rest obs⟩

/-- Witness for C5 at the concrete demo input. -/
theorem calc_residual_deterministic_no_caching_witness :
    ((demoFitter.calc_residual_method demoRunner [1/2] demoObs).1.calc_residual_method
        demoRunner [1/2] demoObs).2.2 =
      (demoFitter.calc_residual_method demoRunner [1/2] demoObs).2.2 ∧
    (demoFitter.calc_residual_method demoRunner [1/2] demoObs).2.1.length = 1 ∧
    ((demoFitter.calc_residual_method demoRunner [1/2] demoObs).1.calc_residual_method
        demoRunner [1/2] demoObs).2.1.length = 1 :=
  calc_residual_deterministic_no_caching demoFitter demoRunner [1/2] demoObs
    (List.cons_ne_nil _ _)

/-- C6: for every valid configuration (standard output axes, target
label present, time axes aligned as the data-model invariant requires)
and every parameter vector accepted by `get_in_ds`, `calc_residual`
returns a residual vector whose length equals the observed series'
length. -/
theorem calc_residual_length_matches_observed
    (f : LeastSqFitter) (runner : SimRunner) (p : List ℚ) (obs : Series)
    (ds : InDs) (hds : f.get_in_ds p = .ok ds)
    (hperm : (runner ds).dims.Perm stdDims)
    (hih : "Ih" ∈ (runner ds).coords "compartment")
    (halign : (runner ds).coords "step" = obs.coords) :
    ∃ r, f.calc_residual runner p obs = .ok r ∧
      r.coords.length = obs.coords.length := by
  obtain ⟨pred, hpred, hdims, hcoords⟩ := extract_ih_ok_of_perm hperm hih
  refine ⟨pred.toSeries.subAligned obs, ?_, ?_⟩
  · unfold LeastSqFitter.calc_residual
    rw [calc_residual_traced_ok hds hpred]
  · have h1 : pred.toSeries.coords = obs.coords := by
      show pred.coords "step" = obs.coords
      rw [hcoords, halign]
    show (pred.toSeries.coords.filter _).length = _
    rw [h1, List.filter_eq_self.mpr]
    intro a ha
    simpa using ha

/-- Witness for C6 at the aligned concrete input. -/
theorem calc_residual_length_matches_observed_witness :
    ∃ r, demoFitter.calc_residual demoRunner [1/2] demoObs = .ok r ∧
      r.coords.length = demoObs.coords.length :=
  calc_residual_length_matches_observed demoFitter demoRunner [1/2] demoObs
    demoInDs rfl (List.Perm.refl _) (by decide) rfl

/-- C7: when the compartment axis lacks the target label `Ih`, the
selection step raises a `KeyError` and `calc_residual` propagates it
fatally — no residual is computed or returned. -/
theorem calc_residual_missing_compartment_keyerror
    (f : LeastSqFitter) (runner : SimRunner) (p : List ℚ) (obs : Series)
    (ds : InDs) (hds : f.get_in_ds p = .ok ds)
    (hdim : "compartment" ∈ (runner ds).dims)
    (hih : "Ih" ∉ (runner ds).coords "compartment") :
    f.calc_residual runner p obs = .error (.keyError "Ih") := by
  have hnone : ((runner ds).coords "compartment").indexOf? "Ih" = none := by
    rw [List.indexOf?_eq_none_iff]
    exact fun x hx h => hih (eq_of_beq h ▸ hx)
  have hsel : (runner ds).sel "compartment" "Ih" = .error (.keyError "Ih") := by
    simp [XArray.sel, hdim, hnone]
  have hext : extract_ih (runner ds) = .error (.keyError "Ih") := by
    simp [extract_ih, hsel]
  unfold LeastSqFitter.calc_residual
  rw [calc_residual_traced_err hds hext]

/-- Witness for C7 at a concrete output lacking `Ih`. -/
theorem calc_residual_missing_compartment_keyerror_witness :
    demoFitter.calc_residual demoRunnerNoIh [1/2] demoObs =
      .error (.keyError "Ih") :=
  calc_residual_missing_compartment_keyerror demoFitter demoRunnerNoIh [1/2]
    demoObs demoInDs rfl (by decide) (by decide)

/-- C8: constructing a `LeastSqFitter` only stores the eight
configuration fields (leaving `soln` unset) and runs nothing; and
`calc_residual` leaves every stored field of the fitter unchanged — the
configuration is read-only during evaluation. -/
theorem fitter_construction_stores_and_frame :
    (∀ (d : Series) (g : ℚ) (m dv : String) (sc : List String) (v : ℤ)
      (lk : LsKwargs) (cf : String),
      (mkLeastSqFitter d g m dv sc v lk cf).data = d ∧
      (mkLeastSqFitter d g m dv sc v lk cf).guess = g ∧
      (mkLeastSqFitter d g m dv sc v lk cf).model = m ∧
      (mkLeastSqFitter d g m dv sc v lk cf).dep_var = dv ∧
      (mkLeastSqFitter d g m dv sc v lk cf).step_clock = sc ∧
      (mkLeastSqFitter d g m dv sc v lk cf).verbosity = v ∧
      (mkLeastSqFitter d g m dv sc v lk cf).ls_kwargs = lk ∧
      (mkLeastSqFitter d g m dv sc v lk cf).config_fp = cf ∧
      (mkLeastSqFitter d g m dv sc v lk cf).soln = none) ∧
    (∀ (f : LeastSqFitter) (runner : SimRunner) (p : List ℚ) (obs : Series),
      (f.calc_residual_method runner p obs).1 = f) :=
  ⟨fun _ _ _ _ _ _ _ _ => ⟨rfl, rfl, rfl, rfl, rfl, rfl, rfl, rfl, rfl⟩,
   fun _ _ _ _ => rfl⟩

/-- C9: for nonempty parameter vectors agreeing in their first element,
`calc_residual` (trace included) is identical — `get_in_ds` reads only
`dep_vars[0]`, all further elements are ignored. -/
theorem calc_residual_depends_only_on_first
    (f : LeastSqFitter) (runner : SimRunner) (obs : Series)
    (p₁ p₂ : List ℚ) (_h₁ : p₁ ≠ []) (_h₂ : p₂ ≠ [])
    (hhead : p₁.head? = p₂.head?) :
    f.calc_residual_traced runner p₁ obs = f.calc_residual_traced runner p₂ obs := by
  unfold LeastSqFitter.calc_residual_traced LeastSqFitter.get_in_ds
  rw [hhead]

/-- Witness for C9: vectors `[1/2, 3]` and `[1/2, 9]` give identical
results. -/
theorem calc_residual_depends_only_on_first_witness :
    demoFitter.calc_residual_traced demoRunner [1/2, 3] demoObs =
      demoFitter.calc_residual_traced demoRunner [1/2, 9] demoObs :=
  calc_residual_depends_only_on_first demoFitter demoRunner demoObs
    [1/2, 3] [1/2, 9] (List.cons_ne_nil _ _) (List.cons_ne_nil _ _) rfl

/-- C10: the `dep_var` attribute never influences behaviour — two
fitters differing only in `dep_var` produce identical residuals and
traces for every parameter vector, and the parameter is always bound to
the input named `foi__beta`. -/
theorem dep_var_has_no_influence
    (f : LeastSqFitter) (dv : String) (runner : SimRunner)
    (p : List ℚ) (obs : Series) :
    ({ f with dep_var := dv } : LeastSqFitter).calc_residual_traced runner p obs =
      f.calc_residual_traced runner p obs ∧
    (∀ b ds, p.head? = some b → f.get_in_ds p = .ok ds →
      ds.input_vars.lookup "foi__beta" = some (.num b)) := by
  constructor
  · rfl
  · intro b ds hb hds
    cases p with
    | nil => simp at hb
    | cons c rest =>
      rw [get_in_ds_cons] at hds
      injection hds with h
      subst h
      injection hb with h2
      subst h2
      rfl

/-- Witness for C10 at a concrete fitter pair differing in `dep_var`. -/
theorem dep_var_has_no_influence_witness :
    ({ demoFitter with dep_var := "gamma" } : LeastSqFitter).calc_residual_traced
        demoRunner [1/2] demoObs =
      demoFitter.calc_residual_traced demoRunner [1/2] demoObs ∧
    demoInDs.input_vars.lookup "foi__beta" = some (.num (1/2)) :=
  ⟨(dep_var_has_no_influence demoFitter "gamma" demoRunner [1/2] demoObs).1,
   (dep_var_has_no_influence demoFitter "gamma" demoRunner [1/2] demoObs).2
     (1/2) demoInDs rfl rfl⟩

end Episimlab
